import Mathlib

/-!
Verification of the reqwest-metrics middleware (src/src/lib.rs).

The crate is an HTTP-client middleware that, per call, derives a label set
from the outbound request and the delegated result, records three histogram
observations (duration, request body size, response body size), and returns
the delegated result unchanged.

This file shallowly embeds the label-derivation and emission logic as pure
Lean functions, mirroring the Rust source item by item, and proves the
specification claims about it.  Machine integers (u16 ports and status
codes, usize/u64 body sizes, u128 milliseconds) are modelled as `Nat`: none
of the verified properties involve values anywhere near their overflow
bounds.  The `f64` histogram value is modelled as the exact rational it
approximates; the phenomena at issue (millisecond truncation via
`Duration::as_millis`, zero observations) are exact in `f64` as well.
-/

namespace ReqwestMetrics

/-- Metric name constant `HTTP_CLIENT_REQUEST_DURATION` from the source. -/
def HTTP_CLIENT_REQUEST_DURATION : String := "http.client.request.duration"

/-- Metric name constant `HTTP_CLIENT_REQUEST_BODY_SIZE` from the source. -/
def HTTP_CLIENT_REQUEST_BODY_SIZE : String := "http.client.request.body.size"

/-- Metric name constant `HTTP_CLIENT_RESPONSE_BODY_SIZE` from the source. -/
def HTTP_CLIENT_RESPONSE_BODY_SIZE : String := "http.client.response.body.size"

/-- The `LabelNames` struct: the wire name used for each semantic label key. -/
structure LabelNames where
  http_request_method : String
  server_address : String
  server_port : String
  error_type : String
  http_response_status : String
  network_protocol_name : String
  network_protocol_version : String
  url_scheme : String
deriving Repr, DecidableEq

/-- `impl Default for LabelNames`: the OpenTelemetry semantic-convention names. -/
def LabelNames.mkDefault : LabelNames where
  http_request_method := "http.request.method"
  server_address := "server.address"
  server_port := "server.port"
  error_type := "error.type"
  http_response_status := "http.response.status_code"
  network_protocol_name := "network.protocol.name"
  network_protocol_version := "network.protocol.version"
  url_scheme := "url.scheme"

/-- `MetricsMiddleware`: holds the label-name configuration.  (The
`describe_histogram!` registration side effect in `new_inner` targets the
metrics backend and carries no data relevant to the claims.) -/
structure MetricsMiddleware where
  label_names : LabelNames
deriving Repr, DecidableEq

/-- `MetricsMiddlewareBuilder`: a mutable copy of the label names. -/
structure MetricsMiddlewareBuilder where
  label_names : LabelNames
deriving Repr, DecidableEq

/-- `MetricsMiddlewareBuilder::new`. -/
def MetricsMiddlewareBuilder.new : MetricsMiddlewareBuilder :=
  ⟨LabelNames.mkDefault⟩

/-- `MetricsMiddlewareBuilder::build`: snapshots the label names. -/
def MetricsMiddlewareBuilder.build (b : MetricsMiddlewareBuilder) : MetricsMiddleware :=
  ⟨b.label_names⟩

/-- `MetricsMiddleware::new`: default label names. -/
def MetricsMiddleware.new : MetricsMiddleware :=
  ⟨LabelNames.mkDefault⟩

/- The `label_setters!` macro expands to one setter per line of its
invocation; each setter assigns the *field* named on its line.  The field
assigned below is, for each setter, exactly the field named in the source
(lib.rs lines 189-206) — including line 203, where the
`network_protocol_version_label` setter names the `network_protocol_name`
field. -/

/-- Setter from `http_request_method_label, http_request_method`. -/
def MetricsMiddlewareBuilder.http_request_method_label
    (b : MetricsMiddlewareBuilder) (label : String) : MetricsMiddlewareBuilder :=
  ⟨{ b.label_names with http_request_method := label }⟩

/-- Setter from `server_address_label, server_address`. -/
def MetricsMiddlewareBuilder.server_address_label
    (b : MetricsMiddlewareBuilder) (label : String) : MetricsMiddlewareBuilder :=
  ⟨{ b.label_names with server_address := label }⟩

/-- Setter from `server_port_label, server_port`. -/
def MetricsMiddlewareBuilder.server_port_label
    (b : MetricsMiddlewareBuilder) (label : String) : MetricsMiddlewareBuilder :=
  ⟨{ b.label_names with server_port := label }⟩

/-- Setter from `error_type_label, error_type`. -/
def MetricsMiddlewareBuilder.error_type_label
    (b : MetricsMiddlewareBuilder) (label : String) : MetricsMiddlewareBuilder :=
  ⟨{ b.label_names with error_type := label }⟩

/-- Setter from `http_response_status_label, http_response_status`. -/
def MetricsMiddlewareBuilder.http_response_status_label
    (b : MetricsMiddlewareBuilder) (label : String) : MetricsMiddlewareBuilder :=
  ⟨{ b.label_names with http_response_status := label }⟩

/-- Setter from `network_protocol_name_label, network_protocol_name`. -/
def MetricsMiddlewareBuilder.network_protocol_name_label
    (b : MetricsMiddlewareBuilder) (label : String) : MetricsMiddlewareBuilder :=
  ⟨{ b.label_names with network_protocol_name := label }⟩

/-- Setter from `network_protocol_version_label, network_protocol_name`
(lib.rs line 203: the field named in the macro invocation is
`network_protocol_name`, not `network_protocol_version`). -/
def MetricsMiddlewareBuilder.network_protocol_version_label
    (b : MetricsMiddlewareBuilder) (label : String) : MetricsMiddlewareBuilder :=
  ⟨{ b.label_names with network_protocol_name := label }⟩

/-- Setter from `url_scheme_label, url_scheme`. -/
def MetricsMiddlewareBuilder.url_scheme_label
    (b : MetricsMiddlewareBuilder) (label : String) : MetricsMiddlewareBuilder :=
  ⟨{ b.label_names with url_scheme := label }⟩

/-- The components of a `url::Url` that the middleware reads. -/
structure Url where
  scheme : String
  host : Option String
  port : Option Nat
  path : String
  query : Option String
deriving Repr, DecidableEq

/-- `url::Url::port_or_known_default`, as documented by the url crate: the
explicit port if present, else the known default for the http, https, ws,
wss and ftp schemes, else `None`. -/
def Url.port_or_known_default (u : Url) : Option Nat :=
  match u.port with
  | some p => some p
  | none =>
    match u.scheme with
    | "http" => some 80
    | "https" => some 443
    | "ws" => some 80
    | "wss" => some 443
    | "ftp" => some 21
    | _ => none

/-- `http::Version`, restricted to the variants the source matches on. -/
inductive Version where
  | HTTP_09
  | HTTP_10
  | HTTP_11
  | HTTP_2
  | HTTP_3
  | Other
deriving Repr, DecidableEq

/-- The components of a `reqwest::Request` that the middleware reads.
`body_bytes` is `some n` when `req.body().and_then(|b| b.as_bytes())`
yields an in-memory buffer of length `n`, and `none` when there is no body
or the body is streamed. -/
structure Request where
  method : String
  url : Url
  version : Version
  body_bytes : Option Nat
deriving Repr, DecidableEq

/-- The components of a `reqwest::Response` that the middleware reads. -/
structure Response where
  status : Nat
  content_length : Option Nat
deriving Repr, DecidableEq

/-- `reqwest_middleware::Error`: either a middleware error or a reqwest
error.  Each is modelled by its `Display` rendering (`format!("{err}")`). -/
inductive MwError where
  | Middleware (msg : String)
  | Reqwest (msg : String)
deriving Repr, DecidableEq

/-- The `format!("{err}")` rendering of the wrapped error. -/
def MwError.description : MwError → String
  | .Middleware msg => msg
  | .Reqwest msg => msg

/-- `Result<Response, Error>` as the middleware receives it from `next.run`. -/
inductive CallResult where
  | ok (res : Response)
  | err (e : MwError)
deriving Repr, DecidableEq

/-- `http::StatusCode::is_client_error`: 400..=499. -/
def is_client_error (s : Nat) : Bool :=
  400 ≤ s && s ≤ 499

/-- `http::StatusCode::is_server_error`: 500..=599. -/
def is_server_error (s : Nat) : Bool :=
  500 ≤ s && s ≤ 599

/-- `fn http_request_method`: the nine well-known verbs verbatim, any other
method string copied as-is. -/
def http_request_method (req : Request) : String :=
  match req.method with
  | "GET" => "GET"
  | "POST" => "POST"
  | "PUT" => "PUT"
  | "DELETE" => "DELETE"
  | "HEAD" => "HEAD"
  | "OPTIONS" => "OPTIONS"
  | "CONNECT" => "CONNECT"
  | "PATCH" => "PATCH"
  | "TRACE" => "TRACE"
  | m => m

/-- `fn url_scheme`: "http"/"https" fast-pathed, any other scheme as-is. -/
def url_scheme (req : Request) : String :=
  match req.url.scheme with
  | "http" => "http"
  | "https" => "https"
  | s => s

/-- `fn server_address`: the URL host, stringified, when present. -/
def server_address (req : Request) : Option String :=
  req.url.host

/-- `fn server_port`: `req.url().port_or_known_default()`. -/
def server_port (req : Request) : Option Nat :=
  req.url.port_or_known_default

/-- `fn http_response_status`: the decimal status code on `Ok`, `None` on `Err`. -/
def http_response_status (res : CallResult) : Option String :=
  match res with
  | .ok r => some (toString r.status)
  | .err _ => none

/-- `fn error_type`: decimal status on a 4xx/5xx response, the error's
`Display` rendering on failure, `None` otherwise. -/
def error_type (res : CallResult) : Option String :=
  match res with
  | .ok r =>
    if is_client_error r.status || is_server_error r.status then
      some (toString r.status)
    else
      none
  | .err e => some (MwError.description e)

/-- `fn network_protocol_version` (non-wasm): the closed version table. -/
def network_protocol_version (req : Request) : Option String :=
  match req.version with
  | .HTTP_09 => some "0.9"
  | .HTTP_10 => some "1.0"
  | .HTTP_11 => some "1.1"
  | .HTTP_2 => some "2"
  | .HTTP_3 => some "3"
  | .Other => none

/-- `req.body().and_then(|b| b.as_bytes()).map(|b| b.len()).unwrap_or(0)`. -/
def request_body_size (req : Request) : Nat :=
  req.body_bytes.getD 0

/-- `res.as_ref().ok().and_then(|r| r.content_length()).unwrap_or(0)`. -/
def response_body_size (res : CallResult) : Nat :=
  match res with
  | .ok r => r.content_length.getD 0
  | .err _ => 0

/-- The label vector assembled in `handle` (lib.rs lines 244-283), in push
order: method, scheme and protocol name unconditionally, then address,
port, protocol version, status and error type when available. -/
def handle_labels (ln : LabelNames) (req : Request) (res : CallResult) :
    List (String × String) :=
  [(ln.http_request_method, http_request_method req),
   (ln.url_scheme, url_scheme req),
   (ln.network_protocol_name, "http")]
  ++ ((server_address req).map (fun a => (ln.server_address, a))).toList
  ++ ((server_port req).map (fun p => (ln.server_port, toString p))).toList
  ++ ((network_protocol_version req).map
        (fun v => (ln.network_protocol_version, v))).toList
  ++ ((http_response_status res).map
        (fun s => (ln.http_response_status, s))).toList
  ++ ((error_type res).map (fun e => (ln.error_type, e))).toList

/-- `duration.as_millis() as f64 / 1000.0`, with the elapsed time given in
nanoseconds: `Duration::as_millis` truncates to whole milliseconds. -/
def recorded_duration (elapsed_nanos : Nat) : ℚ :=
  ((elapsed_nanos / 1000000 : Nat) : ℚ) / 1000

/-- One `histogram!(name, &labels).record(value)` call. -/
structure Observation where
  metric : String
  labels : List (String × String)
  value : ℚ
deriving Repr, DecidableEq

/-- `Middleware::handle`, as a pure function of the request, the elapsed
time of the delegated call (in nanoseconds) and the delegated result:
returns the three recorded observations together with the value `handle`
returns to the caller. -/
def handle (m : MetricsMiddleware) (req : Request) (elapsed_nanos : Nat)
    (res : CallResult) : List Observation × CallResult :=
  let labels := handle_labels m.label_names req res
  ([⟨HTTP_CLIENT_REQUEST_DURATION, labels, recorded_duration elapsed_nanos⟩,
    ⟨HTTP_CLIENT_REQUEST_BODY_SIZE, labels, (request_body_size req : ℚ)⟩,
    ⟨HTTP_CLIENT_RESPONSE_BODY_SIZE, labels, (response_body_size res : ℚ)⟩],
   res)

/-- Modelled from the spec: the `enable_uri` builder option and the uri
label are absent from the `src/src/lib.rs` snapshot, although
`examples/enable_uri.rs` calls `MetricsMiddleware::builder().enable_uri().build()`.
Per the spec, the uri value is the request path, concatenated with "?" and
the query string if a query is present, otherwise the path alone. -/
def uri_value (u : Url) : String :=
  match u.query with
  | some q => u.path ++ "?" ++ q
  | none => u.path

/-- Modelled from the spec: the label set with the opt-in uri label.  When
the uri option is not explicitly enabled the uri label is absent; when
enabled, the pair ("uri", uri value) is appended to the label set. -/
def handle_labels_uri (ln : LabelNames) (uri_enabled : Bool) (req : Request)
    (res : CallResult) : List (String × String) :=
  handle_labels ln req res
  ++ (if uri_enabled then [("uri", uri_value req.url)] else [])

/-- Case analysis on membership in the assembled label set: every entry is
one of the three unconditional labels or one of the five optional labels,
the latter present exactly when the corresponding classifier yields a value. -/
lemma mem_handle_labels_cases (ln : LabelNames) (req : Request) (res : CallResult)
    (kv : String × String) (h : kv ∈ handle_labels ln req res) :
    kv = (ln.http_request_method, http_request_method req) ∨
    kv = (ln.url_scheme, url_scheme req) ∨
    kv = (ln.network_protocol_name, "http") ∨
    (∃ a, server_address req = some a ∧ kv = (ln.server_address, a)) ∨
    (∃ p, server_port req = some p ∧ kv = (ln.server_port, toString p)) ∨
    (∃ v, network_protocol_version req = some v ∧
      kv = (ln.network_protocol_version, v)) ∨
    (∃ s, http_response_status res = some s ∧ kv = (ln.http_response_status, s)) ∨
    (∃ e, error_type res = some e ∧ kv = (ln.error_type, e)) := by
  rcases ha : server_address req with _ | a <;>
  rcases hp : server_port req with _ | p <;>
  rcases hv : network_protocol_version req with _ | v <;>
  rcases hs : http_response_status res with _ | s <;>
  rcases he : error_type res with _ | e <;>
  simp_all [handle_labels]

/-- C1: `handle` returns the delegated result (success or failure) to the
caller unmodified: the second component of `handle` — the value returned to
the caller — is exactly the result produced by `next.run`.  Label
computation and metric emission are total and do not touch the result. -/
theorem C1_handle_returns_result_unmodified (m : MetricsMiddleware)
    (req : Request) (elapsed_nanos : Nat) (res : CallResult) :
    (handle m req elapsed_nanos res).2 = res := rfl

/-- C2 (code-bug evaluation): calling the protocol-version renaming setter
with "pv" and building yields a configuration in which the protocol-NAME
wire name has become "pv" while the protocol-version wire name is unchanged
— the setter on lib.rs line 203 assigns the `network_protocol_name` field,
contradicting its own doc comment ("Rename the `network.protocol.version`
label") and the claim that only the protocol-version key is renamed. -/
theorem C2_version_setter_renames_name_key :
    ((MetricsMiddlewareBuilder.new.network_protocol_version_label "pv").build).label_names.network_protocol_name = "pv" ∧
    ((MetricsMiddlewareBuilder.new.network_protocol_version_label "pv").build).label_names.network_protocol_version = "network.protocol.version" :=
  ⟨rfl, rfl⟩

/-- C7: the method label value equals the request's method string for every
method — each of the nine well-known verbs is returned verbatim, and any
other method string passes through unchanged. -/
theorem C7_method_label_verbatim (req : Request) :
    http_request_method req = req.method := by
  unfold http_request_method
  split <;> simp_all

/-- C9: per call, exactly three histogram observations are recorded —
duration, request body size, response body size — and all three carry the
identical label list. -/
theorem C9_three_observations_identical_labels (m : MetricsMiddleware)
    (req : Request) (elapsed_nanos : Nat) (res : CallResult) :
    ∃ L, (handle m req elapsed_nanos res).1 =
      [⟨HTTP_CLIENT_REQUEST_DURATION, L, recorded_duration elapsed_nanos⟩,
       ⟨HTTP_CLIENT_REQUEST_BODY_SIZE, L, (request_body_size req : ℚ)⟩,
       ⟨HTTP_CLIENT_RESPONSE_BODY_SIZE, L, (response_body_size res : ℚ)⟩] :=
  ⟨handle_labels m.label_names req res, rfl⟩

/-- C10: for every request (any scheme) and every outcome, the label set
contains the network-protocol-name label with the constant value "http";
under the default wire names it is the only entry with that key, so the
value under the key is always "http". -/
theorem C10_protocol_name_always_http (m : MetricsMiddleware) (req : Request)
    (res : CallResult) :
    (m.label_names.network_protocol_name, "http") ∈
      handle_labels m.label_names req res ∧
    (∀ v, ("network.protocol.name", v) ∈
      handle_labels LabelNames.mkDefault req res → v = "http") := by
  constructor
  · simp [handle_labels]
  · intro v hv
    rcases mem_handle_labels_cases _ _ _ _ hv with
      h | h | h | ⟨a, _, h⟩ | ⟨p, _, h⟩ | ⟨w, _, h⟩ | ⟨s, _, h⟩ | ⟨e, _, h⟩ <;>
    simp_all [LabelNames.mkDefault]

/-- The boolean range test in `error_type` is equivalent to the 4xx/5xx
proposition, so `error_type` on a response is an if-then-else on it. -/
lemma error_type_ok_eq (r : Response) :
    error_type (CallResult.ok r) =
      if 400 ≤ r.status ∧ r.status ≤ 599 then some (toString r.status)
      else none := by
  by_cases h : 400 ≤ r.status ∧ r.status ≤ 599
  · have hb : (is_client_error r.status || is_server_error r.status) = true := by
      simp only [is_client_error, is_server_error, Bool.or_eq_true, Bool.and_eq_true,
        decide_eq_true_eq]
      omega
    simp only [error_type, hb, if_true, if_pos h]
  · have hb : ¬ (is_client_error r.status || is_server_error r.status) = true := by
      simp only [is_client_error, is_server_error, Bool.or_eq_true, Bool.and_eq_true,
        decide_eq_true_eq]
      omega
    simp only [error_type, if_neg hb, if_neg h]

/-- C3: the status label is present iff a response was obtained, with value
the decimal status code; the error_type label is present iff the status is
in the 4xx/5xx range (value = decimal status) or no response was obtained
(value = the failure description), and absent for statuses up to 399. -/
theorem C3_status_and_error_type (res : CallResult) :
    ((http_response_status res).isSome ↔ ∃ r, res = CallResult.ok r) ∧
    (∀ r, res = CallResult.ok r →
      http_response_status res = some (toString r.status)) ∧
    ((error_type res).isSome ↔
      ((∃ r, res = CallResult.ok r ∧ 400 ≤ r.status ∧ r.status ≤ 599) ∨
        ∃ e, res = CallResult.err e)) ∧
    (∀ r, res = CallResult.ok r → 400 ≤ r.status → r.status ≤ 599 →
      error_type res = some (toString r.status)) ∧
    (∀ r, res = CallResult.ok r → r.status ≤ 399 → error_type res = none) ∧
    (∀ e, res = CallResult.err e →
      http_response_status res = none ∧
      error_type res = some (MwError.description e)) := by
  rcases res with r | e
  · refine ⟨by simp [http_response_status], ?_, ?_, ?_, ?_, by simp⟩
    · intro r2 h
      injection h with h
      subst h
      rfl
    · rw [error_type_ok_eq]
      by_cases h : 400 ≤ r.status ∧ r.status ≤ 599
      · simp only [if_pos h, Option.isSome_some, true_iff]
        exact Or.inl ⟨r, rfl, h⟩
      · rw [if_neg h]
        constructor
        · intro hh
          exact absurd hh (by simp)
        · rintro (⟨r2, hr2, h4⟩ | ⟨e2, he2⟩)
          · injection hr2 with hr2
            subst hr2
            exact absurd h4 h
          · exact CallResult.noConfusion he2
    · intro r2 h h1 h2
      injection h with h
      subst h
      rw [error_type_ok_eq, if_pos ⟨h1, h2⟩]
    · intro r2 h h1
      injection h with h
      subst h
      rw [error_type_ok_eq, if_neg (by omega)]
  · refine ⟨by simp [http_response_status], by simp, ?_, by simp, by simp, ?_⟩
    · simp [error_type]
    · intro e2 h
      injection h with h
      subst h
      exact ⟨rfl, rfl⟩

/-- A 404 response, for evaluating C3 concretely. -/
def wRes404 : CallResult := .ok ⟨404, none⟩

/-- A 200 response, for evaluating C3 concretely. -/
def wRes200 : CallResult := .ok ⟨200, none⟩

/-- C3 witness: at a 404 response the status label is "404" and the
error_type label is "404"; at a 200 response the status label is "200"
and the error_type label is absent. -/
theorem C3_status_and_error_type_witness :
    http_response_status wRes404 = some "404" ∧
    error_type wRes404 = some "404" ∧
    http_response_status wRes200 = some "200" ∧
    error_type wRes200 = none :=
  ⟨(C3_status_and_error_type wRes404).2.1 ⟨404, none⟩ rfl,
   (C3_status_and_error_type wRes404).2.2.2.1 ⟨404, none⟩ rfl (by decide) (by decide),
   (C3_status_and_error_type wRes200).2.1 ⟨200, none⟩ rfl,
   (C3_status_and_error_type wRes200).2.2.2.2.1 ⟨200, none⟩ rfl (by decide)⟩

/-- C8: the emitted port equals the URL's explicit port when present,
otherwise the scheme's well-known default (80 for http, 443 for https; the
url crate also knows ws/wss/ftp), otherwise it is absent; and whenever a
port is derived it appears in the label set in decimal under the port key. -/
theorem C8_server_port (ln : LabelNames) (req : Request) (res : CallResult) :
    (∀ p, req.url.port = some p → server_port req = some p) ∧
    (req.url.port = none → req.url.scheme = "http" → server_port req = some 80) ∧
    (req.url.port = none → req.url.scheme = "https" → server_port req = some 443) ∧
    (req.url.port = none →
      req.url.scheme ∉ (["http", "https", "ws", "wss", "ftp"] : List String) →
      server_port req = none) ∧
    (∀ p, server_port req = some p →
      (ln.server_port, toString p) ∈ handle_labels ln req res) := by
  refine ⟨?_, ?_, ?_, ?_, ?_⟩
  · intro p hp
    simp [server_port, Url.port_or_known_default, hp]
  · intro hn hs
    simp [server_port, Url.port_or_known_default, hn, hs]
  · intro hn hs
    simp [server_port, Url.port_or_known_default, hn, hs]
  · intro hn hs
    simp only [server_port, Url.port_or_known_default, hn]
    split <;> simp_all
  · intro p hp
    simp [handle_labels, hp]

/-- Request for `http://host/path` (no explicit port). -/
def wReqHttp : Request :=
  ⟨"GET", ⟨"http", some "host", none, "/path", none⟩, .HTTP_11, none⟩

/-- Request for `https://host/path` (no explicit port). -/
def wReqHttps : Request :=
  ⟨"GET", ⟨"https", some "host", none, "/path", none⟩, .HTTP_11, none⟩

/-- Request for `http://host:8080/path`. -/
def wReqHttp8080 : Request :=
  ⟨"GET", ⟨"http", some "host", some 8080, "/path", none⟩, .HTTP_11, none⟩

/-- C8 witness: http yields 80, https yields 443, an explicit :8080 yields
8080, and the 8080 port is emitted under the default port key. -/
theorem C8_server_port_witness :
    server_port wReqHttp = some 80 ∧
    server_port wReqHttps = some 443 ∧
    server_port wReqHttp8080 = some 8080 ∧
    ("server.port", "8080") ∈
      handle_labels LabelNames.mkDefault wReqHttp8080 wRes200 :=
  ⟨(C8_server_port LabelNames.mkDefault wReqHttp wRes200).2.1 rfl rfl,
   (C8_server_port LabelNames.mkDefault wReqHttps wRes200).2.2.1 rfl rfl,
   (C8_server_port LabelNames.mkDefault wReqHttp8080 wRes200).1 8080 rfl,
   (C8_server_port LabelNames.mkDefault wReqHttp8080 wRes200).2.2.2.2 8080
     ((C8_server_port LabelNames.mkDefault wReqHttp8080 wRes200).1 8080 rfl)⟩

/-- C4 (uri label, modelled from the spec): when the uri option is not
enabled, the label set is exactly the base label set and carries no uri
entry under the default wire names; when enabled, the pair
("uri", uri value) is present, where the uri value is the path concatenated
with "?" and the query when a query is present, and the bare path
otherwise. -/
theorem C4_uri_label (ln : LabelNames) (req : Request) (res : CallResult) :
    handle_labels_uri ln false req res = handle_labels ln req res ∧
    (∀ v, ("uri", v) ∉ handle_labels_uri LabelNames.mkDefault false req res) ∧
    ("uri", uri_value req.url) ∈ handle_labels_uri ln true req res ∧
    (∀ q, req.url.query = some q →
      uri_value req.url = req.url.path ++ "?" ++ q) ∧
    (req.url.query = none → uri_value req.url = req.url.path) := by
  refine ⟨by simp [handle_labels_uri], ?_, by simp [handle_labels_uri], ?_, ?_⟩
  · intro v hv
    simp only [handle_labels_uri, Bool.false_eq_true, if_false,
      List.append_nil] at hv
    rcases mem_handle_labels_cases _ _ _ _ hv with
      h | h | h | ⟨a, _, h⟩ | ⟨p, _, h⟩ | ⟨w, _, h⟩ | ⟨s, _, h⟩ | ⟨e2, _, h⟩ <;>
    simp_all [LabelNames.mkDefault]
  · intro q hq
    simp [uri_value, hq]
  · intro hq
    simp [uri_value, hq]

/-- Request for `/hello?x=1`, for evaluating C4 concretely. -/
def uriReqQuery : Request :=
  ⟨"GET", ⟨"http", some "h", none, "/hello", some "x=1"⟩, .HTTP_11, none⟩

/-- Request for `/hello` with no query, for evaluating C4 concretely. -/
def uriReqNoQuery : Request :=
  ⟨"GET", ⟨"http", some "h", none, "/hello", none⟩, .HTTP_11, none⟩

/-- C4 witness: with the uri option enabled, `/hello?x=1` yields uri value
"/hello?x=1" (and the pair is in the label set), `/hello` yields "/hello";
with the option disabled no uri entry exists. -/
theorem C4_uri_label_witness :
    uri_value uriReqQuery.url = "/hello?x=1" ∧
    uri_value uriReqNoQuery.url = "/hello" ∧
    ("uri", "/hello?x=1") ∈
      handle_labels_uri LabelNames.mkDefault true uriReqQuery wRes200 ∧
    ("uri", "/hello?x=1") ∉
      handle_labels_uri LabelNames.mkDefault false uriReqQuery wRes200 := by
  have h1 : uri_value uriReqQuery.url = "/hello?x=1" :=
    ((C4_uri_label LabelNames.mkDefault uriReqQuery wRes200).2.2.2.1 "x=1"
      rfl).trans (by decide)
  have h2 := (C4_uri_label LabelNames.mkDefault uriReqQuery wRes200).2.2.1
  rw [h1] at h2
  exact ⟨h1,
    (C4_uri_label LabelNames.mkDefault uriReqNoQuery wRes200).2.2.2.2 rfl,
    h2,
    (C4_uri_label LabelNames.mkDefault uriReqQuery wRes200).2.1 "/hello?x=1"⟩

/-- A GET to `http://localhost:1/` whose delegation fails before any
response (connection refused). -/
def connRefusedReq : Request :=
  ⟨"GET", ⟨"http", some "localhost", some 1, "/", none⟩, .HTTP_11, none⟩

/-- The connection-refused failure as the middleware receives it. -/
def connRefusedErr : MwError := .Reqwest "connection refused"

/-- C5 counterexample: for a call that fails before any response, the
emitted label set DOES contain the host label — `server_address` is derived
from the request URL before delegation, so the claim that the host label is
absent on failure is false. -/
theorem C5_counterexample_host_present :
    ("server.address", "localhost") ∈
      handle_labels LabelNames.mkDefault connRefusedReq
        (CallResult.err connRefusedErr) := by
  decide

/-- C5 (amended): when delegation fails before any response, the method and
scheme labels are present, the status label is absent (no entry under the
status key), and the error_type label carries the failure's description;
the host label, derived from the request URL before delegation, remains
present whenever the URL carries a host. -/
theorem C5_amended_failure_labels (ln : LabelNames) (req : Request)
    (e : MwError) :
    (ln.http_request_method, http_request_method req) ∈
      handle_labels ln req (CallResult.err e) ∧
    (ln.url_scheme, url_scheme req) ∈
      handle_labels ln req (CallResult.err e) ∧
    http_response_status (CallResult.err e) = none ∧
    (∀ v, ("http.response.status_code", v) ∉
      handle_labels LabelNames.mkDefault req (CallResult.err e)) ∧
    (ln.error_type, MwError.description e) ∈
      handle_labels ln req (CallResult.err e) ∧
    (∀ h, req.url.host = some h →
      (ln.server_address, h) ∈ handle_labels ln req (CallResult.err e)) := by
  refine ⟨by simp [handle_labels], by simp [handle_labels], rfl, ?_, ?_, ?_⟩
  · intro v hv
    rcases mem_handle_labels_cases _ _ _ _ hv with
      h | h | h | ⟨a, _, h⟩ | ⟨p, _, h⟩ | ⟨w, _, h⟩ | ⟨s, hs, h⟩ | ⟨e2, _, h⟩ <;>
    simp_all [LabelNames.mkDefault, http_response_status]
  · simp [handle_labels, error_type]
  · intro h hh
    simp [handle_labels, server_address, hh]

/-- C5 witness: at the connection-refused call, the amended theorem applied
to the concrete request shows the host label present. -/
theorem C5_amended_failure_labels_witness :
    (LabelNames.mkDefault.server_address, "localhost") ∈
      handle_labels LabelNames.mkDefault connRefusedReq
        (CallResult.err connRefusedErr) ∧
    (LabelNames.mkDefault.error_type, "connection refused") ∈
      handle_labels LabelNames.mkDefault connRefusedReq
        (CallResult.err connRefusedErr) :=
  ⟨(C5_amended_failure_labels LabelNames.mkDefault connRefusedReq
      connRefusedErr).2.2.2.2.2 "localhost" rfl,
   (C5_amended_failure_labels LabelNames.mkDefault connRefusedReq
      connRefusedErr).2.2.2.2.1⟩

/-- C6 counterexample: a completed call with elapsed time 500000 ns (half a
millisecond) records a duration observation of 0 — not the elapsed
fractional-second value 1/2000 and not a strictly positive value —
because `Duration::as_millis` truncates to whole milliseconds before the
division by 1000.0. -/
theorem C6_counterexample_submillisecond :
    recorded_duration 500000 = 0 ∧
    (500000 : ℚ) / 1000000000 = 1 / 2000 ∧
    ¬ 0 < recorded_duration 500000 := by
  refine ⟨by norm_num [recorded_duration], by norm_num, ?_⟩
  norm_num [recorded_duration]

/-- C6 (amended): the duration observation equals the elapsed time
truncated to whole milliseconds and divided by 1000: it never exceeds the
exact fractional-second elapsed value, undershoots it by less than one
millisecond, and is strictly positive exactly when the call took at least
one millisecond (sub-millisecond calls record 0). -/
theorem C6_amended_duration_millisecond_truncation (m : MetricsMiddleware)
    (req : Request) (elapsed_nanos : Nat) (res : CallResult) :
    ∃ o, o ∈ (handle m req elapsed_nanos res).1 ∧
      o.metric = HTTP_CLIENT_REQUEST_DURATION ∧
      o.value = ((elapsed_nanos / 1000000 : Nat) : ℚ) / 1000 ∧
      o.value ≤ (elapsed_nanos : ℚ) / 1000000000 ∧
      (elapsed_nanos : ℚ) / 1000000000 - o.value < 1 / 1000 ∧
      (0 < o.value ↔ 1000000 ≤ elapsed_nanos) := by
  have h0 : (1000000 : Nat) * (elapsed_nanos / 1000000) +
      elapsed_nanos % 1000000 = elapsed_nanos := Nat.div_add_mod _ _
  have hr : elapsed_nanos % 1000000 < 1000000 :=
    Nat.mod_lt _ (by norm_num)
  have hE : (elapsed_nanos : ℚ) =
      1000000 * ((elapsed_nanos / 1000000 : Nat) : ℚ) +
      ((elapsed_nanos % 1000000 : Nat) : ℚ) := by
    exact_mod_cast h0.symm
  have hRnn : (0 : ℚ) ≤ ((elapsed_nanos % 1000000 : Nat) : ℚ) := by positivity
  have hRlt : ((elapsed_nanos % 1000000 : Nat) : ℚ) < 1000000 := by
    exact_mod_cast hr
  refine ⟨⟨HTTP_CLIENT_REQUEST_DURATION,
    handle_labels m.label_names req res,
    recorded_duration elapsed_nanos⟩, by simp [handle], rfl, rfl, ?_, ?_, ?_⟩
  · show ((elapsed_nanos / 1000000 : Nat) : ℚ) / 1000 ≤
      (elapsed_nanos : ℚ) / 1000000000
    linarith [hE, hRnn]
  · show (elapsed_nanos : ℚ) / 1000000000 -
      ((elapsed_nanos / 1000000 : Nat) : ℚ) / 1000 < 1 / 1000
    linarith [hE, hRlt]
  · show 0 < ((elapsed_nanos / 1000000 : Nat) : ℚ) / 1000 ↔
      1000000 ≤ elapsed_nanos
    rw [lt_div_iff₀ (by norm_num : (0 : ℚ) < 1000), zero_mul, Nat.cast_pos]
    omega

/-- C10 witness: at a concrete http GET with a 200 response the
protocol-name label is present, and applying the uniqueness part to that
very entry confirms its value is "http". -/
theorem C10_protocol_name_always_http_witness :
    ("network.protocol.name", "http") ∈
      handle_labels LabelNames.mkDefault wReqHttp wRes200 ∧
    ("http" : String) = "http" :=
  ⟨(C10_protocol_name_always_http MetricsMiddleware.new wReqHttp wRes200).1,
   (C10_protocol_name_always_http MetricsMiddleware.new wReqHttp wRes200).2 "http"
     (C10_protocol_name_always_http MetricsMiddleware.new wReqHttp wRes200).1⟩

end ReqwestMetrics
